import Mathlib

/-!
# Verification of the volcano queue controller (pkg/controllers/queue/queue_controller.go)

A shallow embedding of the queue controller's reconciliation core.  Each Go
function that the claims mention is translated into a pure Lean function; the
side effects a function performs against the cluster API, the work queues and
the event recorder are made explicit as a list of `Effect` values returned in
program order.  External results (lister lookups, cluster-API deletions, the
work queue's per-item requeue counter) are passed in as parameters, since they
are produced by out-of-scope collaborators.

klog verbose (`klog.V(n).Infof`) logging is pure observability and is omitted
from the effect traces; `klog.Errorf` calls are kept as `Effect.logError`
because the worker loops' behaviour on malformed items is specified through
them.
-/

namespace QueueController

/-- `QueueRequest` from volcano's scheduling v1alpha2 API: a reconciliation
intent `{Name, Event, Action}`.  `Event` and `Action` are string typedefs in
Go and are embedded as `String`. -/
structure QueueRequest where
  name : String
  event : String
  action : String
deriving DecidableEq, Repr

/-- `metav1.OwnerReference` restricted to the fields the controller reads:
the referenced object's kind and name. -/
structure OwnerRef where
  kind : String
  name : String
deriving DecidableEq, Repr

/-- `Command` from volcano's bus v1alpha1 API, restricted to the fields the
controller reads.  `TargetObject` is a `*metav1.OwnerReference` in Go, hence
an `Option` here (`none` embeds the nil pointer). -/
structure Command where
  ns : String
  name : String
  targetObject : Option OwnerRef
  action : String
deriving DecidableEq, Repr

/-- A `Queue` resource restricted to the fields the controller reads: its
name and its declared `Status.State` (a string typedef in Go). -/
structure Queue where
  name : String
  state : String
deriving DecidableEq, Repr

/-- An item popped from the queue-request work queue.  The Go work queue
holds `interface{}` values; `other` embeds any object that is not a
`*QueueRequest` (carrying its printed form). -/
inductive WorkItem where
  | queueRequest (req : QueueRequest)
  | other (desc : String)
deriving DecidableEq, Repr

/-- An item popped from the command work queue.  `other` embeds any object
that is not a `*Command`. -/
inductive CmdItem where
  | command (cmd : Command)
  | other (desc : String)
deriving DecidableEq, Repr

/-- The observable side effects of the controller's functions, in program
order.  Each constructor corresponds to one call the Go code makes against
the work queues, the event recorder, the cluster API, or the informers. -/
inductive Effect where
  | recordEvent (queueName eventType reason message : String)
  | forgetQueueItem (obj : WorkItem)
  | addRateLimitedQueueItem (obj : WorkItem)
  | doneQueueItem (obj : WorkItem)
  | forgetCommand (obj : CmdItem)
  | addRateLimitedCommand (obj : CmdItem)
  | doneCommand (obj : CmdItem)
  | enqueueQueueReq (req : QueueRequest)
  | enqueueCommand (cmd : Command)
  | deleteCommand (ns name : String)
  | syncHandlerCall (req : QueueRequest)
  | syncCommandHandlerCall (cmd : Command)
  | logError (msg : String)
  | startQueueInformer
  | startPGInformer
  | startCmdInformer
  | waitForCacheSync
  | startWorker
  | startCommandWorker
  | shutDownQueue
  | shutDownCommandQueue
deriving DecidableEq, Repr

/-- `maxRetries = 15`: the number of times a queue request or command is
retried before it is dropped out of its work queue. -/
def maxRetries : Nat := 15

/-- Go constant `v1.EventTypeWarning`. -/
def EventTypeWarning : String := "Warning"

/-- Modelled from the spec: the scheduling v1alpha2 event constant
`QueueCommandIssuedEvent`, recorded on a `QueueRequest` synthesized from a
`Command` ("Event: CommandIssued"); its exact string value lives in the API
package, which is not part of the sources. -/
def QueueCommandIssuedEvent : String := "CommandIssued"

/-- Result of `c.queueLister.Get(name)`: the queue, a not-found error
(`apierrors.IsNotFound`), or any other error (carrying its message). -/
inductive GetQueueResult where
  | found (q : Queue)
  | notFound
  | err (msg : String)
deriving DecidableEq, Repr

/-- Result of `c.vcClient.BusV1alpha1().Commands(ns).Delete(name, nil)`:
success, a not-found error, or any other error (carrying its message). -/
inductive DeleteResult where
  | ok
  | notFound
  | err (msg : String)
deriving DecidableEq, Repr

/-- Result of `queue.Get()`: either the shutdown indicator or an item. -/
inductive GetResult (α : Type) where
  | shutdown
  | item (a : α)
deriving DecidableEq, Repr

/-- Modelled from the spec: the state objects of the `queuestate` package
(states `Open`, `Closing`, `Closed`; an unknown declared state yields no
state object). -/
inductive QState where
  | openState
  | closingState
  | closedState
deriving DecidableEq, Repr

/-- Modelled from the spec: `queuestate.NewState` — builds the state object
for a queue's declared `Status.State`; "building a state object for an
invalid/unknown declared state fails" (the constructor returns nil). -/
def NewState (q : Queue) : Option QState :=
  if q.state = "Open" then some .openState
  else if q.state = "Closing" then some .closingState
  else if q.state = "Closed" then some .closedState
  else none

/-- `Controller.handleQueue`: look the queue up in the lister (not-found is
success, any other error is wrapped with the queue name); build the state
object (nil means "invalid queue state"); execute the requested action (an
execution error is wrapped with queue name, event and action).  Returns
`none` for success or `some msg` embedding the returned `error`.
`lookup` stands for the lister result and `execute` for
`queueState.Execute(req.Action)`, both produced outside this function. -/
def handleQueue (lookup : GetQueueResult)
    (execute : QState → String → Option String)
    (req : QueueRequest) : Option String :=
  match lookup with
  | .notFound => none
  | .err e => some ("get queue " ++ req.name ++ " failed for " ++ e)
  | .found q =>
    match NewState q with
    | none => some ("queue " ++ q.name ++ " state " ++ q.state ++ " is invalid")
    | some st =>
      match execute st req.action with
      | some e =>
          some ("sync queue " ++ req.name ++ " failed for " ++ e ++
                ", event is " ++ req.event ++ ", action is " ++ req.action)
      | none => none

/-- `Controller.handleQueueErr`: on success forget the item; on failure
re-enqueue rate-limited while `NumRequeues(obj) < maxRetries`; once the cap
is reached, record a Warning event against the queue (reason = the requested
action, message = "<action> queue failed for <err>") and forget the item.
The Go parameter `obj interface{}` is always the `*QueueRequest` asserted by
the caller (`processNextWorkItem` passes the popped item after a successful
type assertion), so it is typed as `QueueRequest` here; `numRequeues` stands
for `c.queue.NumRequeues(obj)`. -/
def handleQueueErr (err : Option String) (req : QueueRequest)
    (numRequeues : Nat) : List Effect :=
  match err with
  | none => [.forgetQueueItem (.queueRequest req)]
  | some e =>
    if numRequeues < maxRetries then
      [.addRateLimitedQueueItem (.queueRequest req)]
    else
      [.recordEvent req.name EventTypeWarning req.action
         (req.action ++ " queue failed for " ++ e),
       .forgetQueueItem (.queueRequest req)]

/-- `Controller.processNextWorkItem`: pop from the queue-request queue
(shutdown terminates the loop with `false` and no `Done`); a popped item is
released with `Done` exactly once via `defer` (last effect); a non-
`*QueueRequest` item is logged and skipped without invoking the sync
handler; otherwise the sync handler runs and its error is handed to
`handleQueueErr`.  `syncHandler` stands for `c.syncHandler` (wired to
`handleQueue`) and `numRequeues` for `c.queue.NumRequeues(obj)`. -/
def processNextWorkItem (syncHandler : QueueRequest → Option String)
    (numRequeues : Nat) (get : GetResult WorkItem) : Bool × List Effect :=
  match get with
  | .shutdown => (false, [])
  | .item obj =>
    match obj with
    | .other d =>
        (true, [.logError (d ++ " is not a valid queue request struct."),
                .doneQueueItem obj])
    | .queueRequest req =>
        (true, [.syncHandlerCall req] ++
               handleQueueErr (syncHandler req) req numRequeues ++
               [.doneQueueItem obj])

/-- `Controller.handleCommand`: delete the command from the cluster API
first; not-found means already consumed (success, nothing enqueued); any
other deletion error is wrapped and returned (nothing enqueued); only on
successful deletion is one `QueueRequest{Name: cmd.TargetObject.Name,
Event: QueueCommandIssuedEvent, Action: cmd.Action}` enqueued.  `delResult`
stands for the cluster-API deletion outcome.  A nil `TargetObject` would
make the Go code panic dereferencing it; every command reaching this
function passed the informer filter, so the success branch requires
`targetObject = some ref` (the `none` branch embeds the panic as an empty
continuation after the delete call). -/
def handleCommand (delResult : DeleteResult) (cmd : Command) :
    Option String × List Effect :=
  match delResult with
  | .notFound => (none, [.deleteCommand cmd.ns cmd.name])
  | .err e =>
      (some ("failed to delete command <" ++ cmd.ns ++ "/" ++ cmd.name ++
             "> for " ++ e),
       [.deleteCommand cmd.ns cmd.name])
  | .ok =>
    match cmd.targetObject with
    | none => (none, [.deleteCommand cmd.ns cmd.name])
    | some ref =>
        (none, [.deleteCommand cmd.ns cmd.name,
                .enqueueQueueReq
                  { name := ref.name,
                    event := QueueCommandIssuedEvent,
                    action := cmd.action }])

/-- `Controller.handleCommandErr`: on success forget; on failure re-enqueue
rate-limited while `NumRequeues(obj) < maxRetries`; once the cap is reached,
drop the command and forget it (no event is recorded on this path). -/
def handleCommandErr (err : Option String) (obj : CmdItem)
    (numRequeues : Nat) : List Effect :=
  match err with
  | none => [.forgetCommand obj]
  | some _ =>
    if numRequeues < maxRetries then
      [.addRateLimitedCommand obj]
    else
      [.forgetCommand obj]

/-- `Controller.processNextCommand`: pop from the command queue (shutdown
terminates the loop with `false` and no `Done`); a popped item is released
with `Done` exactly once via `defer` (last effect); a non-`*Command` item is
logged and skipped without invoking the handler; otherwise the command
handler runs and its error is handed to `handleCommandErr`. -/
def processNextCommand (syncCommandHandler : Command → Option String)
    (numRequeues : Nat) (get : GetResult CmdItem) : Bool × List Effect :=
  match get with
  | .shutdown => (false, [])
  | .item obj =>
    match obj with
    | .other d =>
        (true, [.logError (d ++ " is not a valid Command struct."),
                .doneCommand obj])
    | .command cmd =>
        (true, [.syncCommandHandlerCall cmd] ++
               handleCommandErr (syncCommandHandler cmd) obj numRequeues ++
               [.doneCommand obj])

/-- Modelled from the spec: `IsQueueReference` (from the controller's util
file, not among the sources) — "only commands whose `TargetObject` names a
Queue are admitted"; a nil reference or one whose kind is not Queue is
rejected. -/
def IsQueueReference : Option OwnerRef → Bool
  | none => false
  | some ref => ref.kind == "Queue"

/-- An object delivered to the command informer's event handler: either a
`*Command` or some other runtime object. -/
inductive RawObject where
  | command (cmd : Command)
  | other (desc : String)
deriving DecidableEq, Repr

/-- The `FilterFunc` of the `cache.FilteringResourceEventHandler` installed
on the command informer in `NewQueueController`: a type switch admitting
only `*Command` objects whose `TargetObject` is a queue reference. -/
def commandFilter (obj : RawObject) : Bool :=
  match obj with
  | .command cmd => IsQueueReference cmd.targetObject
  | .other _ => false

/-- The command informer's add path: the filtering handler runs `FilterFunc`
and only on `true` invokes `AddFunc` (`c.addCommand`).  Modelled from the
spec for the admitted branch: "admitted commands are enqueued directly onto
the command queue (no transformation)" (`addCommand` itself is not among
the sources). -/
def onCommandAdd (obj : RawObject) : List Effect :=
  if commandFilter obj then
    match obj with
    | .command cmd => [.enqueueCommand cmd]
    | .other _ => []
  else []

/-- `Controller.Run`: start the three informers, block on
`cache.WaitForCacheSync` over the queue, podgroup and command caches; if the
sync fails, log and return (the deferred shutdowns still run); otherwise
start the queue worker and the command worker and block until `stopCh`
fires, after which the deferred shutdowns run in LIFO order.
`cacheSyncOk` stands for the result of `WaitForCacheSync`. -/
def Run (cacheSyncOk : Bool) : List Effect :=
  [.startQueueInformer, .startPGInformer, .startCmdInformer,
   .waitForCacheSync] ++
  (if cacheSyncOk then [Effect.startWorker, Effect.startCommandWorker]
   else [Effect.logError "unable to sync caches for queue controller."]) ++
  [.shutDownCommandQueue, .shutDownQueue]

/-- Number of rate-limited retries an always-failing queue request receives:
starting from requeue count `n`, repeatedly hand the failure to
`handleQueueErr` (each `AddRateLimited` increments the work queue's requeue
count for the item) until the item is no longer re-enqueued; `fuel` bounds
the recursion. -/
def countRetries (e : String) (req : QueueRequest) : Nat → Nat → Nat
  | 0, _ => 0
  | fuel + 1, n =>
    if Effect.addRateLimitedQueueItem (.queueRequest req) ∈
        handleQueueErr (some e) req n then
      1 + countRetries e req fuel (n + 1)
    else 0

/-- Substring containment on strings, used to state which context an error
message carries. -/
def strContains (s sub : String) : Bool :=
  decide (sub.toList <:+: s.toList)

/-- Whether an effect is a call to the event recorder. -/
def isRecordEvent : Effect → Bool
  | .recordEvent _ _ _ _ => true
  | _ => false

/-- A concrete command targeting queue `q1`, used to instantiate theorems. -/
def cmdEx : Command :=
  { ns := "default", name := "cmd1",
    targetObject := some { kind := "Queue", name := "q1" },
    action := "CloseQueue" }

/-- A concrete queue request, used to instantiate theorems. -/
def reqEx : QueueRequest :=
  { name := "q1", event := QueueCommandIssuedEvent, action := "OpenQueue" }

/-- A state-machine execution that always succeeds, used to instantiate
theorems. -/
def execNone : QState → String → Option String := fun _ _ => none

/-- A state-machine execution that always fails with "boom", used to
instantiate theorems. -/
def execSomeBoom : QState → String → Option String := fun _ _ => some "boom"

section Lemmas

lemma handleQueueErr_below_cap (e : String) (req : QueueRequest) (n : Nat)
    (h : n < maxRetries) :
    handleQueueErr (some e) req n =
      [.addRateLimitedQueueItem (.queueRequest req)] := by
  simp [handleQueueErr, h]

lemma handleQueueErr_at_cap (e : String) (req : QueueRequest) (n : Nat)
    (h : maxRetries ≤ n) :
    handleQueueErr (some e) req n =
      [.recordEvent req.name EventTypeWarning req.action
         (req.action ++ " queue failed for " ++ e),
       .forgetQueueItem (.queueRequest req)] := by
  simp [handleQueueErr, Nat.not_lt.mpr h]

lemma doneQueue_not_mem_handleQueueErr (err : Option String)
    (req : QueueRequest) (n : Nat) (obj : WorkItem) :
    Effect.doneQueueItem obj ∉ handleQueueErr err req n := by
  cases err with
  | none => simp [handleQueueErr]
  | some e =>
    by_cases h : n < maxRetries
    · simp [handleQueueErr_below_cap e req n h]
    · simp [handleQueueErr_at_cap e req n (Nat.not_lt.mp h)]

lemma doneCommand_not_mem_handleCommandErr (err : Option String)
    (obj : CmdItem) (n : Nat) (cobj : CmdItem) :
    Effect.doneCommand cobj ∉ handleCommandErr err obj n := by
  cases err with
  | none => simp [handleCommandErr]
  | some e =>
    by_cases h : n < maxRetries
    · simp [handleCommandErr, h]
    · simp [handleCommandErr, h]

lemma countRetries_spec (e : String) (req : QueueRequest) (fuel n : Nat)
    (h : maxRetries ≤ n + fuel) :
    countRetries e req fuel n = maxRetries - n := by
  induction fuel generalizing n with
  | zero =>
    have : maxRetries ≤ n := by omega
    simp [countRetries, Nat.sub_eq_zero_of_le this]
  | succ fuel ih =>
    by_cases hn : n < maxRetries
    · rw [countRetries, if_pos (by simp [handleQueueErr_below_cap e req n hn])]
      rw [ih (n + 1) (by omega)]
      omega
    · rw [countRetries,
          if_neg (by simp [handleQueueErr_at_cap e req n (Nat.not_lt.mp hn)])]
      omega

end Lemmas

/-- Claim C1, counterexample: the command worker's drop path records no
event.  For the concrete command `cmdEx` whose retry count has reached
`maxRetries`, `handleCommandErr` emits only a `Forget` — the effect trace
contains no call to the event recorder, refuting the claim that the
Warning-event behaviour "holds for both the queue-request worker and the
command worker". -/
theorem command_drop_records_no_event :
    handleCommandErr (some "terminal failure") (.command cmdEx) maxRetries =
      [.forgetCommand (.command cmdEx)]
    ∧ (handleCommandErr (some "terminal failure") (.command cmdEx)
         maxRetries).filter isRecordEvent = [] := by
  constructor <;> rfl

/-- Claim C1 (amended): when an item's retry count has reached `maxRetries`,
the queue-request worker's drop path records a Warning event against the
queue whose reason is the requested action and whose message is the action
followed by " queue failed for " and the terminal error, then forgets the
item; the command worker's drop path forgets the command without recording
any event. -/
theorem exhausted_retries_warning_event (e : String) (req : QueueRequest)
    (obj : CmdItem) (n : Nat) (h : maxRetries ≤ n) :
    handleQueueErr (some e) req n =
      [.recordEvent req.name EventTypeWarning req.action
         (req.action ++ " queue failed for " ++ e),
       .forgetQueueItem (.queueRequest req)]
    ∧ handleCommandErr (some e) obj n = [.forgetCommand obj] := by
  refine ⟨handleQueueErr_at_cap e req n h, ?_⟩
  simp [handleCommandErr, Nat.not_lt.mpr h]

/-- Claim C1, witness for `exhausted_retries_warning_event` at a concrete
request, command and count. -/
theorem exhausted_retries_warning_event_witness :
    handleQueueErr (some "boom") reqEx maxRetries =
      [.recordEvent reqEx.name EventTypeWarning reqEx.action
         (reqEx.action ++ " queue failed for " ++ "boom"),
       .forgetQueueItem (.queueRequest reqEx)]
    ∧ handleCommandErr (some "boom") (.command cmdEx) maxRetries =
        [.forgetCommand (.command cmdEx)] :=
  exhausted_retries_warning_event "boom" reqEx (.command cmdEx) maxRetries
    (Nat.le_refl maxRetries)

/-- Claim C2: `handleCommand` deletes the command from the cluster API
first (the delete call is the first effect in every branch); a not-found
deletion yields success with nothing enqueued; any other deletion error
yields a wrapped error with nothing enqueued; only a successful deletion
enqueues exactly one `QueueRequest{Name: cmd.TargetObject.Name,
Event: CommandIssued, Action: cmd.Action}`. -/
theorem command_translated_at_most_once (cmd : Command) (ref : OwnerRef)
    (e : String) (h : cmd.targetObject = some ref) :
    handleCommand .notFound cmd = (none, [.deleteCommand cmd.ns cmd.name])
    ∧ handleCommand (.err e) cmd =
        (some ("failed to delete command <" ++ cmd.ns ++ "/" ++ cmd.name ++
               "> for " ++ e),
         [.deleteCommand cmd.ns cmd.name])
    ∧ handleCommand .ok cmd =
        (none, [.deleteCommand cmd.ns cmd.name,
                .enqueueQueueReq
                  { name := ref.name, event := QueueCommandIssuedEvent,
                    action := cmd.action }]) := by
  refine ⟨rfl, rfl, ?_⟩
  simp [handleCommand, h]

/-- Claim C2, witness for `command_translated_at_most_once` at the concrete
command `cmdEx`. -/
theorem command_translated_at_most_once_witness :
    handleCommand .notFound cmdEx =
      (none, [.deleteCommand cmdEx.ns cmdEx.name])
    ∧ handleCommand (.err "boom") cmdEx =
        (some ("failed to delete command <" ++ cmdEx.ns ++ "/" ++
               cmdEx.name ++ "> for " ++ "boom"),
         [.deleteCommand cmdEx.ns cmdEx.name])
    ∧ handleCommand .ok cmdEx =
        (none, [.deleteCommand cmdEx.ns cmdEx.name,
                .enqueueQueueReq
                  { name := "q1", event := QueueCommandIssuedEvent,
                    action := cmdEx.action }]) :=
  command_translated_at_most_once cmdEx
    { kind := "Queue", name := "q1" } "boom" rfl

/-- Claim C3: for a `QueueRequest` naming a queue the lister reports as not
found, `handleQueue` returns success (`nil`), and `handleQueueErr` on that
result forgets the item — at every requeue count, deletion is never treated
as an error. -/
theorem queue_notfound_is_success
    (execute : QState → String → Option String)
    (req : QueueRequest) (n : Nat) :
    handleQueue .notFound execute req = none
    ∧ handleQueueErr (handleQueue .notFound execute req) req n =
        [.forgetQueueItem (.queueRequest req)] :=
  ⟨rfl, rfl⟩

/-- Claim C4: an always-failing item is re-enqueued rate-limited exactly
when its requeue count is strictly below `maxRetries`; starting fresh it is
retried exactly `maxRetries = 15` times; at the cap it is dropped with a
Warning event and forgotten. -/
theorem retry_cap (e : String) (req : QueueRequest) (n : Nat) :
    (handleQueueErr (some e) req n =
        [.addRateLimitedQueueItem (.queueRequest req)] ↔ n < maxRetries)
    ∧ countRetries e req (maxRetries + 1) 0 = maxRetries
    ∧ (maxRetries ≤ n →
        handleQueueErr (some e) req n =
          [.recordEvent req.name EventTypeWarning req.action
             (req.action ++ " queue failed for " ++ e),
           .forgetQueueItem (.queueRequest req)]) := by
  refine ⟨?_, ?_, handleQueueErr_at_cap e req n⟩
  · constructor
    · intro heq
      by_contra hn
      rw [handleQueueErr_at_cap e req n (Nat.not_lt.mp hn)] at heq
      simp at heq
    · intro hn
      exact handleQueueErr_below_cap e req n hn
  · rw [countRetries_spec e req (maxRetries + 1) 0 (by omega)]
    omega

/-- Claim C4, witness for `retry_cap` at a concrete request and count. -/
theorem retry_cap_witness :
    handleQueueErr (some "boom") reqEx maxRetries =
      [.recordEvent reqEx.name EventTypeWarning reqEx.action
         (reqEx.action ++ " queue failed for " ++ "boom"),
       .forgetQueueItem (.queueRequest reqEx)] :=
  (retry_cap "boom" reqEx maxRetries).2.2 (Nat.le_refl maxRetries)

/-- Claim C5: the command informer's filtering handler admits an object
onto the command queue only if it is a `Command` whose `TargetObject`
references a Queue: non-`Command` objects are never enqueued, a `Command`
failing `IsQueueReference` is never enqueued, and an admitted `Command` is
enqueued unchanged; a nil `TargetObject` is not a queue reference, and a
non-nil one is exactly when its kind is Queue. -/
theorem command_filter_admits_only_queue_refs (cmd : Command)
    (ref : OwnerRef) (d : String) :
    onCommandAdd (.other d) = []
    ∧ (IsQueueReference cmd.targetObject = false →
        onCommandAdd (.command cmd) = [])
    ∧ (IsQueueReference cmd.targetObject = true →
        onCommandAdd (.command cmd) = [.enqueueCommand cmd])
    ∧ IsQueueReference none = false
    ∧ (IsQueueReference (some ref) = true ↔ ref.kind = "Queue") := by
  refine ⟨rfl, ?_, ?_, rfl, ?_⟩
  · intro h
    simp [onCommandAdd, commandFilter, h]
  · intro h
    simp [onCommandAdd, commandFilter, h]
  · simp [IsQueueReference]

/-- Claim C5, witness for `command_filter_admits_only_queue_refs` at a
concrete admitted command and a concrete rejected reference. -/
theorem command_filter_admits_only_queue_refs_witness :
    onCommandAdd (.command cmdEx) = [.enqueueCommand cmdEx] :=
  ((command_filter_admits_only_queue_refs cmdEx
      { kind := "Job", name := "j1" } "pod").2.2.1) rfl

/-- Claim C6: when the queue exists but its declared state is unrecognized
(`NewState` returns no state object), `handleQueue` returns the
"state ... is invalid" error, and `handleQueueErr` treats it exactly like a
transient error: below the retry cap the whole reconciliation request is
re-enqueued rate-limited. -/
theorem invalid_state_retried_as_transient (q : Queue) (req : QueueRequest)
    (execute : QState → String → Option String) (n : Nat)
    (hs : NewState q = none) (hn : n < maxRetries) :
    handleQueue (.found q) execute req =
      some ("queue " ++ q.name ++ " state " ++ q.state ++ " is invalid")
    ∧ handleQueueErr (handleQueue (.found q) execute req) req n =
        [.addRateLimitedQueueItem (.queueRequest req)] := by
  have h1 : handleQueue (.found q) execute req =
      some ("queue " ++ q.name ++ " state " ++ q.state ++ " is invalid") := by
    simp [handleQueue, hs]
  refine ⟨h1, ?_⟩
  rw [h1]
  exact handleQueueErr_below_cap _ req n hn

/-- Claim C6, witness for `invalid_state_retried_as_transient` at a
concrete queue with an unrecognized state. -/
theorem invalid_state_retried_as_transient_witness :
    handleQueue (.found { name := "q1", state := "Bogus" }) execNone reqEx =
      some ("queue " ++ "q1" ++ " state " ++ "Bogus" ++ " is invalid")
    ∧ handleQueueErr
        (handleQueue (.found { name := "q1", state := "Bogus" })
          execNone reqEx) reqEx 0 =
        [.addRateLimitedQueueItem (.queueRequest reqEx)] :=
  invalid_state_retried_as_transient { name := "q1", state := "Bogus" }
    reqEx execNone 0 (by decide) (by decide)

/-- Claim C7, counterexample: a queue-lookup error is wrapped with the
queue name but not with the action.  For the concrete request `reqEx`
(action "OpenQueue") and a failing lookup, the error `handleQueue` returns
is "get queue q1 failed for connection refused", which contains the queue
name but does not contain the action — refuting the claim that every
lookup error is wrapped with queue name and action context. -/
theorem error_wrapping_counterexample :
    handleQueue (.err "connection refused") execNone reqEx =
      some "get queue q1 failed for connection refused"
    ∧ strContains "get queue q1 failed for connection refused"
        reqEx.name = true
    ∧ strContains "get queue q1 failed for connection refused"
        reqEx.action = false := by
  refine ⟨rfl, by decide, by decide⟩

/-- Claim C7 (amended): an error from state-machine execution is wrapped
with the queue name, the event and the action; an error from queue lookup
is wrapped with the queue name (but not with the action). -/
theorem errors_wrapped_with_context (req : QueueRequest) (e : String)
    (q : Queue) (execute : QState → String → Option String) (st : QState)
    (h1 : NewState q = some st) (h2 : execute st req.action = some e) :
    handleQueue (.err e) execute req =
      some ("get queue " ++ req.name ++ " failed for " ++ e)
    ∧ handleQueue (.found q) execute req =
        some ("sync queue " ++ req.name ++ " failed for " ++ e ++
              ", event is " ++ req.event ++ ", action is " ++ req.action)
    ∧ strContains ("get queue " ++ req.name ++ " failed for " ++ e)
        req.name = true
    ∧ strContains ("sync queue " ++ req.name ++ " failed for " ++ e ++
          ", event is " ++ req.event ++ ", action is " ++ req.action)
        req.action = true := by
  refine ⟨rfl, ?_, ?_, ?_⟩
  · simp [handleQueue, h1, h2]
  · simp only [strContains, decide_eq_true_eq]
    exact ⟨"get queue ".toList, (" failed for " ++ e).toList, by
      simp [String.toList, String.data_append]⟩
  · simp only [strContains, decide_eq_true_eq]
    exact ⟨("sync queue " ++ req.name ++ " failed for " ++ e ++
            ", event is " ++ req.event ++ ", action is ").toList, [], by
      simp [String.toList, String.data_append]⟩

/-- Claim C7, witness for `errors_wrapped_with_context` at a concrete
request, queue and execution error. -/
theorem errors_wrapped_with_context_witness :
    handleQueue (.err "boom") execSomeBoom reqEx =
      some ("get queue " ++ reqEx.name ++ " failed for " ++ "boom")
    ∧ handleQueue (.found { name := "q1", state := "Open" })
        execSomeBoom reqEx =
        some ("sync queue " ++ reqEx.name ++ " failed for " ++ "boom" ++
              ", event is " ++ reqEx.event ++ ", action is " ++
              reqEx.action)
    ∧ strContains ("get queue " ++ reqEx.name ++ " failed for " ++ "boom")
        reqEx.name = true
    ∧ strContains ("sync queue " ++ reqEx.name ++ " failed for " ++
          "boom" ++ ", event is " ++ reqEx.event ++ ", action is " ++
          reqEx.action) reqEx.action = true :=
  errors_wrapped_with_context reqEx "boom"
    { name := "q1", state := "Open" } execSomeBoom .openState rfl rfl

/-- Claim C8: `Run` starts no worker before the cache-synchronization
barrier; when `WaitForCacheSync` fails neither worker is ever started, and
when it succeeds both workers start strictly after the barrier. -/
theorem run_startup_barrier :
    Run false = [.startQueueInformer, .startPGInformer, .startCmdInformer,
                 .waitForCacheSync,
                 .logError "unable to sync caches for queue controller.",
                 .shutDownCommandQueue, .shutDownQueue]
    ∧ Effect.startWorker ∉ Run false
    ∧ Effect.startCommandWorker ∉ Run false
    ∧ Run true = [.startQueueInformer, .startPGInformer, .startCmdInformer,
                  .waitForCacheSync, .startWorker, .startCommandWorker,
                  .shutDownCommandQueue, .shutDownQueue] := by
  refine ⟨rfl, ?_, ?_, rfl⟩ <;> decide

section Lemmas2

lemma count_doneQueue_handleQueueErr (err : Option String)
    (req : QueueRequest) (n : Nat) (obj : WorkItem) :
    (handleQueueErr err req n).count (Effect.doneQueueItem obj) = 0 :=
  List.count_eq_zero.mpr (doneQueue_not_mem_handleQueueErr err req n obj)

lemma count_doneCommand_handleCommandErr (err : Option String)
    (obj : CmdItem) (n : Nat) (cobj : CmdItem) :
    (handleCommandErr err obj n).count (Effect.doneCommand cobj) = 0 :=
  List.count_eq_zero.mpr (doneCommand_not_mem_handleCommandErr err obj n cobj)

end Lemmas2

/-- Claim C9: whenever `Get` returns an item, both worker-loop bodies call
`Done` on that item exactly once, as the last thing before returning, and
return `true`; when `Get` reports shutdown they return `false` with no
effects at all (in particular no `Done`), terminating the worker loop. -/
theorem done_called_exactly_once (sh : QueueRequest → Option String)
    (sch : Command → Option String) (n m : Nat)
    (obj : WorkItem) (cobj : CmdItem) :
    processNextWorkItem sh n .shutdown = (false, [])
    ∧ processNextCommand sch m .shutdown = (false, [])
    ∧ (processNextWorkItem sh n (.item obj)).1 = true
    ∧ ((processNextWorkItem sh n (.item obj)).2).count
        (Effect.doneQueueItem obj) = 1
    ∧ ((processNextWorkItem sh n (.item obj)).2).getLast? =
        some (Effect.doneQueueItem obj)
    ∧ (processNextCommand sch m (.item cobj)).1 = true
    ∧ ((processNextCommand sch m (.item cobj)).2).count
        (Effect.doneCommand cobj) = 1
    ∧ ((processNextCommand sch m (.item cobj)).2).getLast? =
        some (Effect.doneCommand cobj) := by
  refine ⟨rfl, rfl, ?_, ?_, ?_, ?_, ?_, ?_⟩
  · cases obj <;> rfl
  · cases obj with
    | queueRequest req =>
      simp [processNextWorkItem, List.count_append,
        count_doneQueue_handleQueueErr]
    | other d => simp [processNextWorkItem]
  · cases obj with
    | queueRequest req =>
      show (([Effect.syncHandlerCall req] ++
          handleQueueErr (sh req) req n) ++
          [Effect.doneQueueItem (.queueRequest req)]).getLast? = _
      exact List.getLast?_concat _
    | other d => rfl
  · cases cobj <;> rfl
  · cases cobj with
    | command cmd =>
      simp [processNextCommand, List.count_append,
        count_doneCommand_handleCommandErr]
    | other d => simp [processNextCommand]
  · cases cobj with
    | command cmd =>
      show (([Effect.syncCommandHandlerCall cmd] ++
          handleCommandErr (sch cmd) (.command cmd) m) ++
          [Effect.doneCommand (.command cmd)]).getLast? = _
      exact List.getLast?_concat _
    | other d => rfl

/-- Claim C10: an item popped from either work queue that is not of the
expected type is logged, released with `Done`, and the loop continues with
`true`; the effect trace shows no `Forget`, no `AddRateLimited`, and no
sync-handler invocation on it. -/
theorem malformed_item_skipped (sh : QueueRequest → Option String)
    (sch : Command → Option String) (n m : Nat) (d d' : String) :
    processNextWorkItem sh n (.item (.other d)) =
      (true, [.logError (d ++ " is not a valid queue request struct."),
              .doneQueueItem (.other d)])
    ∧ processNextCommand sch m (.item (.other d')) =
      (true, [.logError (d' ++ " is not a valid Command struct."),
              .doneCommand (.other d')]) :=
  ⟨rfl, rfl⟩

end QueueController
